import Mathlib

/-!
# Verification of the FirstMCP streamable HTTP server

Shallow embedding of the session-lifecycle core of `src/index.ts` and of the
personal-notes helpers of `src/text.ts`, together with proofs of the spec's
claims about them.

Conventions of the embedding:
* The `transports` registry (a JS object keyed by session id) is an
  association list `List (String × Nat)` whose values are opaque transport
  tokens; JS property assignment, lookup and `delete` are modelled by
  `setEntry`, `lookupReg` and `delEntry`.
* HTTP handlers become pure functions from the registry and the relevant
  request data to a structured result (response sent, registry afterwards,
  whether the transport layer was invoked, ...).  The handlers themselves
  never mutate the registry - in the source all mutation happens in the
  `onsessioninitialized` and `onclose` callbacks, which are modelled as
  registry events (`REvent`) applied by `applyEvent`/`runTrace`.
* JS truthiness of the `mcp-session-id` header (absent or empty string both
  count as "no session id") is modelled by `sidTruthy`.
* Fallible external calls (`transport.handleRequest`, `transport.close`)
  are modelled by an explicit outcome argument.
-/

namespace FirstMCP

/-! ## Embedding of src/text.ts -/

/-- JS `String.prototype.trim()`: strip whitespace from both ends, modelled
on the character list of the string. -/
def trimData (l : List Char) : List Char :=
  ((l.dropWhile Char.isWhitespace).reverse.dropWhile Char.isWhitespace).reverse

/-- JS `text.trim()` on a Lean string. -/
def jsTrim (s : String) : String :=
  String.mk (trimData s.data)

/-- JS `s.endsWith(t)`, modelled on character lists. -/
def jsEndsWith (s t : String) : Bool :=
  t.data.isSuffixOf s.data

/-- JS `s.length > 0`, i.e. the string is non-empty. -/
def jsNonEmpty (s : String) : Bool :=
  !s.data.isEmpty

/-- `DEFAULT_NOTES` from src/text.ts: three default notes joined by newlines. -/
def DEFAULT_NOTES : String :=
  "Bevasarolni tejet." ++ "\n" ++ "Megszerelni a biciklit." ++ "\n" ++ "MCP szervert programozni."

/-- State of the notes file: `none` when the file does not exist, `some c`
when it exists with content `c`. -/
abbrev NotesFile : Type := Option String

/-- `ensureNotesFile` (src/text.ts, lines 16-23): creates the file with the
default notes plus a trailing newline when reading it fails, otherwise
leaves it alone.  Returns the file content after the call. -/
def ensureNotesFile : NotesFile → String
  | none => DEFAULT_NOTES ++ "\n"
  | some c => c

/-- `appendNote` (src/text.ts, lines 30-40) as a transformer of the notes
file state.  It first runs `ensureNotesFile`, reads the existing content,
trims the input, returns before writing when the trimmed text is empty, and
otherwise writes the existing content, a separating newline when the
existing content is non-empty and does not already end in a newline, the
trimmed text and a trailing newline. -/
def appendNote (file : NotesFile) (text : String) : NotesFile :=
  let existing := ensureNotesFile file
  let trimmed := jsTrim text
  if trimmed = "" then some existing
  else
    let separator := if jsNonEmpty existing && !(jsEndsWith existing "\n") then "\n" else ""
    some (existing ++ separator ++ trimmed ++ "\n")

/-- The `add_note` tool handler (src/text.ts, lines 73-83): appends the note
and always answers with a success message quoting the trimmed text.
Returns the notes file afterwards and the text content of the reply. -/
def addNoteTool (file : NotesFile) (text : String) : NotesFile × String :=
  (appendNote file text, "Jegyzet hozzaadva: \"" ++ jsTrim text ++ "\"")

/-! ## Embedding of src/index.ts: server startup (lines 383-405) -/

/-- Outcome of the `server.on error` callback inside `startServer`. -/
inductive BindAction
  | fallbackEphemeral
  | exitFailure
  deriving DecidableEq, Repr

/-- JS truthiness of an optional environment variable or header: absent or
the empty string are falsy. -/
def truthyEnv : Option String → Bool
  | none => false
  | some s => !s.isEmpty

/-- The bind-error callback installed by `startServer` (src/index.ts, lines
393-402): when the error code is `EADDRINUSE`, `process.env.MCP_PORT` is
falsy and the attempted port is not already `0`, it retries on port `0`
(an ephemeral port); in every other case it logs and exits with status 1. -/
def startServerOnError (errCode : String) (mcpPortEnv : Option String) (port : Nat) :
    BindAction :=
  if errCode = "EADDRINUSE" && !(truthyEnv mcpPortEnv) && port != 0 then
    BindAction.fallbackEphemeral
  else
    BindAction.exitFailure

/-! ## Embedding of src/index.ts: the transports registry (line 237)

The registry `const transports: { [sessionId: string]: StreamableHTTPServerTransport }`
is an association list from session ids to opaque transport tokens. -/

/-- Opaque stand-in for a `StreamableHTTPServerTransport` instance. -/
abbrev Transport : Type := Nat

/-- The `transports` map: JS object keyed by session id. -/
abbrev Registry : Type := List (String × Transport)

/-- JS property read `transports[sid]`. -/
def lookupReg (m : Registry) (sid : String) : Option Transport :=
  (m.find? (fun e => e.1 == sid)).map (fun e => e.2)

/-- JS property assignment `transports[sid] = t`: overwrite the value when
the key is present (keys of a JS object are unique), otherwise add the
entry. -/
def setEntry : Registry → String → Transport → Registry
  | [], sid, t => [(sid, t)]
  | e :: rest, sid, t =>
      if e.1 = sid then (sid, t) :: rest else e :: setEntry rest sid t

/-- JS `delete transports[sid]`: remove the entry for the key. -/
def delEntry (m : Registry) (sid : String) : Registry :=
  m.filter (fun e => !(e.1 == sid))

/-- JS truthiness of the `mcp-session-id` header: a request "has a session
id" when the header is present and non-empty. -/
def sidTruthy : Option String → Bool
  | none => false
  | some s => !s.isEmpty

/-- Whether a request's session id header resolves to a live transport:
the header is truthy and `transports[sid]` is set (the guard
`sessionId && transports[sessionId]` of src/index.ts, line 253). -/
def resolves (m : Registry) (sid : Option String) : Bool :=
  match sid with
  | none => false
  | some s => !s.isEmpty && (lookupReg m s).isSome

/-! ### Registry mutation events

In src/index.ts the `transports` map is mutated in exactly two places:
the `onsessioninitialized` callback (line 262-267) inserts the transport
under the freshly generated session id, and the `transport.onclose`
callback (lines 271-277) removes it.  These are modelled as events applied
to the registry. -/

/-- A mutation of the `transports` map. -/
inductive REvent
  /-- The `onsessioninitialized` callback fires for session id `sid` with
  transport `t`: `transports[sid] = t`. -/
  | established (sid : String) (t : Transport)
  /-- The `transport.onclose` callback fires for a transport whose
  `sessionId` is `sid` (`none` when the transport never got an id). -/
  | closed (sid : Option String)
  deriving DecidableEq, Repr

/-- The `transport.onclose` handler (src/index.ts, lines 271-277): when the
transport has a session id and the map still holds an entry for it, the
entry is deleted; otherwise nothing happens. -/
def oncloseCleanup (m : Registry) (sid : Option String) : Registry :=
  match sid with
  | none => m
  | some s => if (lookupReg m s).isSome then delEntry m s else m

/-- Apply one registry mutation event. -/
def applyEvent (m : Registry) : REvent → Registry
  | REvent.established sid t => setEntry m sid t
  | REvent.closed sid => oncloseCleanup m sid

/-- Run a sequence of registry mutation events from an initial map. -/
def runTrace (m : Registry) : List REvent → Registry
  | [] => m
  | e :: rest => runTrace (applyEvent m e) rest

/-- `true` when the trace contains an `established` event for `sid`, i.e.
the `onsessioninitialized` callback has fired for that id somewhere in the
trace. -/
def mentionsEstablish : List REvent → String → Bool
  | [], _ => false
  | REvent.established s _ :: rest, sid => s == sid || mentionsEstablish rest sid
  | REvent.closed _ :: rest, sid => mentionsEstablish rest sid

/-! ## Embedding of src/index.ts: the HTTP handlers -/

/-- A response sent by one of the three route handlers. -/
inductive HttpResponse
  /-- `res.status(st).json(...)` with a JSON-RPC error body: error code
  `code` and correlation id `id` (`none` is JSON `null`). -/
  | jsonError (status : Nat) (code : Int) (id : Option Nat)
  /-- `res.status(st).send(body)` with a plain text body. -/
  | textError (status : Nat) (body : String)
  /-- The response was produced by `transport.handleRequest`. -/
  | handled
  /-- Nothing further was written (headers were already sent when the
  error was caught). -/
  | suppressed
  deriving DecidableEq, Repr

/-- Whether a response is a structured JSON-RPC error object (as opposed
to a plain text body, a delegated response, or nothing). -/
def isStructuredError : HttpResponse → Bool
  | HttpResponse.jsonError _ _ _ => true
  | _ => false

/-- Outcome of an awaited `transport.handleRequest` call: either it
resolves, or it rejects with `headersSent` recording whether part of the
response had already been sent when the error reached the catch block. -/
inductive TransportOutcome
  /-- The call resolved normally. -/
  | ok
  /-- The call rejected; `headersSent` is `res.headersSent` at catch time. -/
  | fault (headersSent : Bool)
  deriving DecidableEq, Repr

/-- Result of running one HTTP route handler. -/
structure HandlerResult where
  /-- What was sent on the response. -/
  response : HttpResponse
  /-- The `transports` map after the handler body itself ran (the handlers
  never mutate the map directly; all mutation happens in callbacks). -/
  registry : Registry
  /-- Whether `transport.handleRequest` was invoked. -/
  transportInvoked : Bool
  /-- Whether a new `StreamableHTTPServerTransport` was constructed
  (the initialization branch). -/
  sessionCreated : Bool
  /-- Whether an error was logged via `console.error`. -/
  loggedError : Bool
  /-- Whether an exception escaped the handler uncaught. -/
  uncaughtError : Bool
  deriving DecidableEq, Repr

/-- `mcpPostHandler` (src/index.ts, lines 240-315).  Branches:
1. session id truthy and resolvable: reuse the transport and invoke
   `handleRequest`;
2. session id falsy and the body is an initialization request: construct a
   new transport (it is published to the map only later, by the
   `onsessioninitialized` callback) and invoke `handleRequest`;
3. otherwise: reply `400` with JSON-RPC error code `-32000`, message
   "Bad Request: No valid session ID provided" and `id: null`.
Any exception from the awaited `handleRequest` is caught: it is logged and,
only when `res.headersSent` is false, a `500` JSON-RPC error with code
`-32603` and `id: null` is sent. -/
def mcpPostHandler (m : Registry) (sid : Option String) (isInit : Bool)
    (tr : TransportOutcome) : HandlerResult :=
  if resolves m sid then
    match tr with
    | TransportOutcome.ok =>
        ⟨HttpResponse.handled, m, true, false, false, false⟩
    | TransportOutcome.fault hs =>
        ⟨if hs then HttpResponse.suppressed
         else HttpResponse.jsonError 500 (-32603) none, m, true, false, true, false⟩
  else if !(sidTruthy sid) && isInit then
    match tr with
    | TransportOutcome.ok =>
        ⟨HttpResponse.handled, m, true, true, false, false⟩
    | TransportOutcome.fault hs =>
        ⟨if hs then HttpResponse.suppressed
         else HttpResponse.jsonError 500 (-32603) none, m, true, true, true, false⟩
  else
    ⟨HttpResponse.jsonError 400 (-32000) none, m, false, false, false, false⟩

/-- `mcpGetHandler` (src/index.ts, lines 325-346): with a falsy or
unresolvable session id it replies `400` with the plain text body
"Invalid or missing session ID"; otherwise it passes the request (and with
it the `last-event-id` header) to `transport.handleRequest`.  The last
field of the result records the `last-event-id` value forwarded to the
transport (`none` when the transport was not invoked or no such header was
present). -/
def mcpGetHandler (m : Registry) (sid : Option String) (lastEventId : Option Nat) :
    HandlerResult × Option Nat :=
  if !(resolves m sid) then
    (⟨HttpResponse.textError 400 "Invalid or missing session ID", m, false, false, false, false⟩,
      none)
  else
    (⟨HttpResponse.handled, m, true, false, false, false⟩, lastEventId)

/-- `mcpDeleteHandler` (src/index.ts, lines 356-374): with a falsy or
unresolvable session id it replies `400` with the plain text body
"Invalid or missing session ID"; otherwise it invokes
`transport.handleRequest`, catching any exception: the error is logged and,
when headers were not yet sent, a plain `500` response is sent. -/
def mcpDeleteHandler (m : Registry) (sid : Option String)
    (tr : TransportOutcome) : HandlerResult :=
  if !(resolves m sid) then
    ⟨HttpResponse.textError 400 "Invalid or missing session ID", m, false, false, false, false⟩
  else
    match tr with
    | TransportOutcome.ok =>
        ⟨HttpResponse.handled, m, true, false, false, false⟩
    | TransportOutcome.fault hs =>
        ⟨if hs then HttpResponse.suppressed
         else HttpResponse.textError 500 "Error processing session termination",
          m, true, false, true, false⟩

/-! ## The resumable event store

Modelled from the spec: src/index.ts imports `InMemoryEventStore` from
`./inMemoryEventStore.js`, but `src/inMemoryEventStore.ts` is not among the
provided sources, so the store is modelled from the spec (sections 3, 4.1).
A stream is an append-only ordered log of payloads; the event at position
`i` (0-based) of the log carries cursor `i + 1`, so a stream that received
`n` events holds cursors `1..n`, strictly increasing and never reused. -/

/-- Pair each payload of a log suffix with its cursor, the first payload
receiving cursor `c + 1`. -/
def numberedFrom {α : Type} : Nat → List α → List (Nat × α)
  | _, [] => []
  | c, p :: rest => (c + 1, p) :: numberedFrom (c + 1) rest

/-- The `(cursor, payload)` pairs of a whole stream log: cursors `1..n`. -/
def numbered {α : Type} (log : List α) : List (Nat × α) :=
  numberedFrom 0 log

/-- Modelled from the spec: `append(streamId, payload) -> cursor` (spec
4.1) assigns the next cursor for the stream, stores the event and returns
the cursor. -/
def appendEvent {α : Type} (log : List α) (p : α) : List α × Nat :=
  (log ++ [p], log.length + 1)

/-- The events of a stream with cursor strictly greater than `k`, in
original order. -/
def eventsAfter {α : Type} (log : List α) (k : Nat) : List (Nat × α) :=
  (numbered log).filter (fun e => k < e.1)

/-- Modelled from the spec: what `replayFrom(streamId, k, sink)` delivers
to the sink (spec 4.1) when the stream log held `snapshot` when the replay
started and the payloads `appended` were appended while the replay was in
progress: first the backlog - every stored event with cursor greater than
`k`, in order - then, still in order, the queued concurrent appends, which
received the cursors following the snapshot's, with no duplicate delivery
of already-replayed events. -/
def replayDelivered {α : Type} (snapshot : List α) (k : Nat) (appended : List α) :
    List (Nat × α) :=
  eventsAfter snapshot k ++ numberedFrom snapshot.length appended

/-! ## Embedding of src/index.ts: the SIGINT shutdown handler (lines 408-423) -/

/-- Outcome of one awaited `transport.close()` call: it resolves, rejects,
or never settles (the source awaits it with no timeout). -/
inductive CloseOutcome
  | ok
  | throws
  | hang
  deriving DecidableEq, Repr

/-- Result of running the SIGINT handler. -/
structure ShutdownResult where
  /-- Session ids whose `close()` was awaited to settlement, in order. -/
  settled : List String
  /-- Session ids whose `close()` rejected; each is logged via
  `console.error` and the loop continues. -/
  failures : List String
  /-- The `transports` map when the handler stops running. -/
  registry : Registry
  /-- Whether `process.exit(0)` was reached. -/
  exitedZero : Bool
  deriving DecidableEq, Repr

/-- The loop body of the SIGINT handler: for each session in turn, await
`transport.close()`; when it resolves, delete the registry entry and
continue; when it rejects, log the error and continue without deleting;
when it never settles, the handler is suspended forever and
`process.exit(0)` is never reached. -/
def shutdownGo (reg : Registry) (settled failures : List String) :
    List ((String × Transport) × CloseOutcome) → ShutdownResult
  | [] => ⟨settled, failures, reg, true⟩
  | (e, CloseOutcome.ok) :: rest =>
      shutdownGo (delEntry reg e.1) (settled ++ [e.1]) failures rest
  | (e, CloseOutcome.throws) :: rest =>
      shutdownGo reg (settled ++ [e.1]) (failures ++ [e.1]) rest
  | (_, CloseOutcome.hang) :: _ => ⟨settled, failures, reg, false⟩

/-- The SIGINT handler (src/index.ts, lines 408-423), applied to the
sessions registered at signal time, each with the outcome of its
`close()` call. -/
def sigintHandler (sessions : List ((String × Transport) × CloseOutcome)) :
    ShutdownResult :=
  shutdownGo (sessions.map (fun x => x.1)) [] [] sessions

/-! ## Helper lemmas about the registry -/

theorem lookupReg_cons (e : String × Transport) (m : Registry) (sid : String) :
    lookupReg (e :: m) sid = if e.1 = sid then some e.2 else lookupReg m sid := by
  by_cases h : e.1 = sid <;> simp [lookupReg, List.find?_cons, h]

theorem lookupReg_setEntry_ne (m : Registry) (s : String) (t : Transport) (sid : String)
    (h : s ≠ sid) : lookupReg (setEntry m s t) sid = lookupReg m sid := by
  induction m with
  | nil => simp [setEntry, lookupReg, List.find?_cons, h]
  | cons e rest ih =>
      by_cases he : e.1 = s
      · simp [setEntry, he, lookupReg_cons, h]
      · simp [setEntry, he, lookupReg_cons, ih]

theorem delEntry_cons (e : String × Transport) (m : Registry) (s : String) :
    delEntry (e :: m) s = if e.1 = s then delEntry m s else e :: delEntry m s := by
  by_cases h : e.1 = s <;> simp [delEntry, h]

theorem lookupReg_delEntry_self (m : Registry) (s : String) :
    lookupReg (delEntry m s) s = none := by
  induction m with
  | nil => rfl
  | cons e rest ih =>
      by_cases he : e.1 = s
      · simpa [delEntry_cons, he] using ih
      · simpa [delEntry_cons, he, lookupReg_cons] using ih

theorem lookupReg_delEntry_ne (m : Registry) (s : String) (sid : String) (h : s ≠ sid) :
    lookupReg (delEntry m s) sid = lookupReg m sid := by
  induction m with
  | nil => rfl
  | cons e rest ih =>
      by_cases he : e.1 = s
      · have hne : e.1 ≠ sid := he ▸ h
        simp [delEntry_cons, he, lookupReg_cons, hne, h, ih]
      · simp [delEntry_cons, he, lookupReg_cons, ih]

theorem lookupReg_oncloseCleanup_self (m : Registry) (s : String) :
    lookupReg (oncloseCleanup m (some s)) s = none := by
  by_cases h : (lookupReg m s).isSome
  · simp [oncloseCleanup, h, lookupReg_delEntry_self]
  · simpa [oncloseCleanup, h] using Option.not_isSome_iff_eq_none.mp (by simpa using h)

theorem lookupReg_oncloseCleanup_none (m : Registry) (osid : Option String) (sid : String)
    (h : lookupReg m sid = none) : lookupReg (oncloseCleanup m osid) sid = none := by
  match osid with
  | none => simpa [oncloseCleanup] using h
  | some s =>
      by_cases hs : (lookupReg m s).isSome
      · by_cases hss : s = sid
        · subst hss
          simp [oncloseCleanup, hs, lookupReg_delEntry_self]
        · simp [oncloseCleanup, hs, lookupReg_delEntry_ne m s sid hss, h]
      · simpa [oncloseCleanup, hs] using h

theorem runTrace_append (m : Registry) (t₁ t₂ : List REvent) :
    runTrace m (t₁ ++ t₂) = runTrace (runTrace m t₁) t₂ := by
  induction t₁ generalizing m with
  | nil => rfl
  | cons e rest ih => simp [runTrace, ih]

/-- A session id absent from the registry stays absent across any trace in
which the `onsessioninitialized` callback never fires for it. -/
theorem lookupReg_runTrace_none (t : List REvent) (m : Registry) (sid : String)
    (hm : lookupReg m sid = none) (h : mentionsEstablish t sid = false) :
    lookupReg (runTrace m t) sid = none := by
  induction t generalizing m with
  | nil => simpa [runTrace] using hm
  | cons e rest ih =>
      cases e with
      | established s t' =>
          have h' : ¬(s = sid) ∧ mentionsEstablish rest sid = false := by
            simpa [mentionsEstablish, Bool.or_eq_false_iff] using h
          exact ih (applyEvent m (REvent.established s t'))
            (by simpa [applyEvent, lookupReg_setEntry_ne m s t' sid h'.1] using hm) h'.2
      | closed osid =>
          have hrest : mentionsEstablish rest sid = false := by
            simpa [mentionsEstablish] using h
          exact ih (applyEvent m (REvent.closed osid))
            (by simpa [applyEvent] using lookupReg_oncloseCleanup_none m osid sid hm) hrest

theorem mem_keys_setEntry (m : Registry) (s : String) (t : Transport) (x : String)
    (h : x ∈ (setEntry m s t).map Prod.fst) : x ∈ m.map Prod.fst ∨ x = s := by
  induction m with
  | nil =>
      right
      simpa [setEntry] using h
  | cons e rest ih =>
      by_cases he : e.1 = s
      · rcases (by simpa [setEntry, he] using h : x = s ∨ x ∈ rest.map Prod.fst) with h1 | h2
        · exact Or.inr h1
        · exact Or.inl (by simp [h2])
      · rcases (by simpa [setEntry, he] using h :
            x = e.1 ∨ x ∈ (setEntry rest s t).map Prod.fst) with h1 | h2
        · exact Or.inl (by simp [h1])
        · rcases ih h2 with h3 | h4
          · exact Or.inl (by simp [h3])
          · exact Or.inr h4

theorem keys_setEntry_nodup (m : Registry) (s : String) (t : Transport)
    (h : (m.map Prod.fst).Nodup) : ((setEntry m s t).map Prod.fst).Nodup := by
  induction m with
  | nil => simp [setEntry]
  | cons e rest ih =>
      rw [List.map_cons] at h
      rcases List.nodup_cons.mp h with ⟨hnotin, hrest⟩
      by_cases he : e.1 = s
      · simp only [setEntry, he, if_pos, List.map_cons, List.nodup_cons]
        exact ⟨he ▸ hnotin, hrest⟩
      · simp only [setEntry, he, if_neg, List.map_cons, List.nodup_cons, not_false_iff]
        refine ⟨fun hc => ?_, ih hrest⟩
        rcases mem_keys_setEntry rest s t e.1 hc with h1 | h2
        · exact hnotin h1
        · exact he h2

theorem keys_delEntry_nodup (m : Registry) (s : String)
    (h : (m.map Prod.fst).Nodup) : ((delEntry m s).map Prod.fst).Nodup :=
  List.Nodup.sublist ((List.filter_sublist m).map Prod.fst) h

theorem keys_applyEvent_nodup (m : Registry) (e : REvent)
    (h : (m.map Prod.fst).Nodup) : ((applyEvent m e).map Prod.fst).Nodup := by
  cases e with
  | established s t => exact keys_setEntry_nodup m s t h
  | closed osid =>
      cases osid with
      | none => exact h
      | some s =>
          by_cases hs : (lookupReg m s).isSome
          · simpa [applyEvent, oncloseCleanup, hs] using keys_delEntry_nodup m s h
          · simpa [applyEvent, oncloseCleanup, hs] using h

theorem keys_runTrace_nodup (t : List REvent) (m : Registry)
    (h : (m.map Prod.fst).Nodup) : ((runTrace m t).map Prod.fst).Nodup := by
  induction t generalizing m with
  | nil => simpa [runTrace] using h
  | cons e rest ih => exact ih (applyEvent m e) (keys_applyEvent_nodup m e h)

theorem resolves_eq_false_of_lookup_none (m : Registry) (s : String)
    (h : lookupReg m s = none) : resolves m (some s) = false := by
  simp [resolves, h]

theorem resolves_eq_false_of_not_truthy (m : Registry) (sid : Option String)
    (h : sidTruthy sid = false) : resolves m sid = false := by
  cases sid with
  | none => rfl
  | some s =>
      have hs : s.isEmpty = true := by simpa [sidTruthy] using h
      simp [resolves, hs]

theorem sidTruthy_some_of_ne (s : String) (h : s ≠ "") : sidTruthy (some s) = true := by
  by_cases hs : s.isEmpty
  · exact absurd ((String.isEmpty_iff s).mp hs) h
  · simp [sidTruthy, hs]

/-! ## Helper lemmas about the event store -/

theorem numberedFrom_append {α : Type} (l₁ l₂ : List α) (c : Nat) :
    numberedFrom c (l₁ ++ l₂) = numberedFrom c l₁ ++ numberedFrom (c + l₁.length) l₂ := by
  induction l₁ generalizing c with
  | nil => simp [numberedFrom]
  | cons p rest ih =>
      simp only [List.cons_append, numberedFrom, List.append_eq, List.length_cons]
      rw [ih (c + 1), show c + (rest.length + 1) = c + 1 + rest.length from by omega]

theorem numberedFrom_filter_all {α : Type} (l : List α) (c k : Nat) (h : k ≤ c) :
    (numberedFrom c l).filter (fun e => k < e.1) = numberedFrom c l := by
  induction l generalizing c with
  | nil => rfl
  | cons p rest ih =>
      have hk : k < c + 1 := Nat.lt_succ_of_le h
      simp only [numberedFrom, List.filter_cons, decide_eq_true_eq]
      rw [if_pos hk, ih (c + 1) (Nat.le_succ_of_le h)]

theorem numberedFrom_filter_of_le {α : Type} (l : List α) (c k : Nat) (h : c ≤ k) :
    (numberedFrom c l).filter (fun e => k < e.1) = numberedFrom k (l.drop (k - c)) := by
  induction l generalizing c with
  | nil => simp [numberedFrom]
  | cons p rest ih =>
      by_cases hk : k < c + 1
      · have hkc : k = c := Nat.le_antisymm (Nat.lt_succ_iff.mp hk) h
        subst hkc
        simp only [numberedFrom, List.filter_cons, decide_eq_true_eq]
        rw [if_pos (Nat.lt_succ_self k), numberedFrom_filter_all rest (k + 1) k (Nat.le_succ k),
          Nat.sub_self, List.drop_zero]
        rfl
      · have hck : c + 1 ≤ k := Nat.le_of_not_lt hk
        have hsub : k - c = (k - (c + 1)) + 1 := by omega
        simp only [numberedFrom, List.filter_cons, decide_eq_true_eq]
        rw [if_neg hk, ih (c + 1) hck, hsub, List.drop_succ_cons]

theorem numberedFrom_map_fst {α : Type} (l : List α) (c : Nat) :
    (numberedFrom c l).map Prod.fst = List.range' (c + 1) l.length := by
  induction l generalizing c with
  | nil => simp [numberedFrom]
  | cons p rest ih =>
      simp only [numberedFrom, List.map_cons, ih, List.length_cons, List.range'_succ]

/-! ## Helper lemma about the shutdown loop -/

theorem shutdownGo_no_hang (sessions : List ((String × Transport) × CloseOutcome))
    (reg : Registry) (settled failures : List String)
    (h : sessions.all (fun x => !(x.2 == CloseOutcome.hang)) = true) :
    (shutdownGo reg settled failures sessions).settled =
      settled ++ sessions.map (fun x => x.1.1) ∧
    (shutdownGo reg settled failures sessions).failures =
      failures ++ (sessions.filter (fun x => x.2 == CloseOutcome.throws)).map (fun x => x.1.1) ∧
    (shutdownGo reg settled failures sessions).exitedZero = true := by
  induction sessions generalizing reg settled failures with
  | nil => simp [shutdownGo]
  | cons x rest ih =>
      have hx : (!(x.2 == CloseOutcome.hang)) = true := by
        simp only [List.all_cons, Bool.and_eq_true] at h
        exact h.1
      have hrest : rest.all (fun x => !(x.2 == CloseOutcome.hang)) = true := by
        simp only [List.all_cons, Bool.and_eq_true] at h
        exact h.2
      match x, hx with
      | (e, CloseOutcome.ok), _ =>
          rcases ih (delEntry reg e.1) (settled ++ [e.1]) failures hrest with ⟨h1, h2, h3⟩
          refine ⟨?_, ?_, h3⟩
          · simpa [shutdownGo] using h1
          · simpa [shutdownGo, List.filter_cons] using h2
      | (e, CloseOutcome.throws), _ =>
          rcases ih reg (settled ++ [e.1]) (failures ++ [e.1]) hrest with ⟨h1, h2, h3⟩
          refine ⟨?_, ?_, h3⟩
          · simpa [shutdownGo] using h1
          · simpa [shutdownGo, List.filter_cons] using h2

/-! ## Claim theorems -/

/-- C10: for an existing notes file, `appendNote` leaves the file content
completely unchanged when the whitespace-trimmed input is empty (it
returns before writing), while the `add_note` tool still answers with a
success message quoting the trimmed text; for a non-empty trimmed input
the file afterwards is the previous content, a separating newline exactly
when the previous content was non-empty and did not end with a newline,
the trimmed text, and a trailing newline. -/
theorem appendNote_spec (existing text : String) :
    (jsTrim text = "" → appendNote (some existing) text = some existing) ∧
    (addNoteTool (some existing) text).2 = "Jegyzet hozzaadva: \"" ++ jsTrim text ++ "\"" ∧
    (jsTrim text ≠ "" →
      appendNote (some existing) text =
        some (existing ++
          (if jsNonEmpty existing = true ∧ jsEndsWith existing "\n" = false then "\n" else "") ++
          jsTrim text ++ "\n")) := by
  refine ⟨fun h => ?_, rfl, fun h => ?_⟩
  · simp [appendNote, ensureNotesFile, h]
  · have hsep :
        (if jsNonEmpty existing && !(jsEndsWith existing "\n") then ("\n" : String) else "") =
        (if jsNonEmpty existing = true ∧ jsEndsWith existing "\n" = false then "\n" else "") := by
      by_cases h1 : jsNonEmpty existing <;> by_cases h2 : jsEndsWith existing "\n" <;>
        simp [h1, h2]
    simp only [appendNote, ensureNotesFile, if_neg h, hsep]

/-- Witness for C10 at a concrete file and inputs. -/
theorem appendNote_spec_witness :
    appendNote (some "a") "   " = some "a" ∧
    appendNote (some "a") " x " = some ("a" ++ "\n" ++ "x" ++ "\n") := by
  constructor
  · exact (appendNote_spec "a" "   ").1 (by decide)
  · have h := (appendNote_spec "a" " x ").2.2 (by decide)
    rw [h]
    decide

/-- C9: the bind-error callback of `startServer` retries on an ephemeral
port (port 0) exactly when the bind failed because the port was occupied
(`EADDRINUSE`), the `MCP_PORT` environment variable did not demand a fixed
port, and the attempted port was not already 0; in every other bind-error
case the process exits with failure status. -/
theorem startServerOnError_fallback_iff (errCode : String) (env : Option String) (port : Nat) :
    (startServerOnError errCode env port = BindAction.fallbackEphemeral ↔
      errCode = "EADDRINUSE" ∧ truthyEnv env = false ∧ port ≠ 0) ∧
    (startServerOnError errCode env port = BindAction.exitFailure ↔
      ¬(errCode = "EADDRINUSE" ∧ truthyEnv env = false ∧ port ≠ 0)) := by
  unfold startServerOnError
  by_cases h1 : errCode = "EADDRINUSE" <;> by_cases h2 : truthyEnv env <;>
    by_cases h3 : port = 0 <;> simp [h1, h2, h3]

/-- C3: a POST whose session id header is absent (or empty, which JS
treats the same) while the body is not an initialization request, or whose
session id header is present but does not resolve in the transports map,
is rejected with the structured invalid-request error (HTTP 400, JSON-RPC
code -32000, id null); the transports map is unchanged, no transport is
invoked and no session is created. -/
theorem mcpPost_invalid_request_rejected (m : Registry) (sid : Option String) (isInit : Bool)
    (tr : TransportOutcome)
    (h : (sidTruthy sid = false ∧ isInit = false) ∨
         (sidTruthy sid = true ∧ resolves m sid = false)) :
    mcpPostHandler m sid isInit tr =
      ⟨HttpResponse.jsonError 400 (-32000) none, m, false, false, false, false⟩ := by
  rcases h with ⟨h1, h2⟩ | ⟨h1, h2⟩
  · simp [mcpPostHandler, resolves_eq_false_of_not_truthy m sid h1, h1, h2]
  · simp [mcpPostHandler, h1, h2]

/-- Witness for C3: an initialization payload sent with an unknown session
id header is still rejected. -/
theorem mcpPost_invalid_request_rejected_witness :
    mcpPostHandler [] (some "deadbeef") true TransportOutcome.ok =
      ⟨HttpResponse.jsonError 400 (-32000) none, [], false, false, false, false⟩ :=
  mcpPost_invalid_request_rejected [] (some "deadbeef") true TransportOutcome.ok
    (Or.inr ⟨by decide, by decide⟩)

/-- C2: starting from the empty transports map of process start, after any
sequence of registry mutations in which the `onsessioninitialized`
callback has not (yet) fired for a session id, a registry lookup for that
id returns NotFound (the id is absent from the map): the transport is
published to the map only inside that callback, so no request can observe
a partially initialized session. -/
theorem lookup_before_establish_notFound (t : List REvent) (sid : String)
    (h : mentionsEstablish t sid = false) :
    lookupReg (runTrace [] t) sid = none :=
  lookupReg_runTrace_none t [] sid rfl h

/-- Witness for C2: a trace that establishes and closes a different
session never makes "b" visible. -/
theorem lookup_before_establish_notFound_witness :
    lookupReg (runTrace [] [REvent.established "a" 1, REvent.closed (some "a")]) "b" = none :=
  lookup_before_establish_notFound [REvent.established "a" 1, REvent.closed (some "a")] "b"
    (by decide)

/-- C4: the keys of the transports map stay pairwise distinct (at most one
live transport per session id at any time), and once the `onclose` cleanup
has removed a session id - provided the `onsessioninitialized` callback
never fires again for that very id, which holds because ids are freshly
generated UUIDs and never reused - the id stays out of the map, and every
later POST, GET or DELETE bearing it is rejected with a 400-class error,
leaving the map unchanged, invoking no transport and creating no session
under that id. -/
theorem closed_session_never_revived (init : Registry) (t₁ t₂ : List REvent) (sid : String)
    (hnodup : (init.map Prod.fst).Nodup) (hne : sid ≠ "")
    (hfresh : mentionsEstablish t₂ sid = false)
    (isInit : Bool) (tr : TransportOutcome) (lei : Option Nat) :
    ((runTrace init (t₁ ++ REvent.closed (some sid) :: t₂)).map Prod.fst).Nodup ∧
    lookupReg (runTrace init (t₁ ++ REvent.closed (some sid) :: t₂)) sid = none ∧
    mcpPostHandler (runTrace init (t₁ ++ REvent.closed (some sid) :: t₂)) (some sid) isInit tr =
      ⟨HttpResponse.jsonError 400 (-32000) none,
        runTrace init (t₁ ++ REvent.closed (some sid) :: t₂), false, false, false, false⟩ ∧
    (mcpGetHandler (runTrace init (t₁ ++ REvent.closed (some sid) :: t₂)) (some sid) lei).1 =
      ⟨HttpResponse.textError 400 "Invalid or missing session ID",
        runTrace init (t₁ ++ REvent.closed (some sid) :: t₂), false, false, false, false⟩ ∧
    mcpDeleteHandler (runTrace init (t₁ ++ REvent.closed (some sid) :: t₂)) (some sid) tr =
      ⟨HttpResponse.textError 400 "Invalid or missing session ID",
        runTrace init (t₁ ++ REvent.closed (some sid) :: t₂), false, false, false, false⟩ := by
  have hlook :
      lookupReg (runTrace init (t₁ ++ REvent.closed (some sid) :: t₂)) sid = none := by
    rw [runTrace_append]
    exact lookupReg_runTrace_none t₂ _ sid
      (lookupReg_oncloseCleanup_self (runTrace init t₁) sid) hfresh
  have hres : resolves (runTrace init (t₁ ++ REvent.closed (some sid) :: t₂)) (some sid) = false :=
    resolves_eq_false_of_lookup_none _ sid hlook
  have htruthy : sidTruthy (some sid) = true := sidTruthy_some_of_ne sid hne
  refine ⟨keys_runTrace_nodup _ init hnodup, hlook, ?_, ?_, ?_⟩
  · simp [mcpPostHandler, hres, htruthy]
  · simp [mcpGetHandler, hres]
  · simp [mcpDeleteHandler, hres]

/-- Witness for C4: session "a" is established, closed, and a later
initialization POST bearing "a" is rejected without reviving it. -/
theorem closed_session_never_revived_witness :
    lookupReg (runTrace [] ([REvent.established "a" 7] ++ REvent.closed (some "a") :: [])) "a" =
      none ∧
    mcpPostHandler (runTrace [] ([REvent.established "a" 7] ++ REvent.closed (some "a") :: []))
        (some "a") true TransportOutcome.ok =
      ⟨HttpResponse.jsonError 400 (-32000) none,
        runTrace [] ([REvent.established "a" 7] ++ REvent.closed (some "a") :: []),
        false, false, false, false⟩ := by
  have h := closed_session_never_revived [] [REvent.established "a" 7] [] "a"
    (by decide) (by decide) (by decide) true TransportOutcome.ok (some 3)
  exact ⟨h.2.1, h.2.2.1⟩

/-- C6: closing an already-closed or unknown session id is a no-op and
never raises an error: the `onclose` removal path applied to an id absent
from the transports map (or to a transport that never received an id)
leaves the map unchanged, and a client DELETE bearing such an id completes
without any uncaught error, invoking no transport and changing nothing (it
answers with a 400 response, per the request classification). -/
theorem close_idempotent_noop (m : Registry) (sid : String) (tr : TransportOutcome)
    (h : lookupReg m sid = none) :
    oncloseCleanup m (some sid) = m ∧
    oncloseCleanup m none = m ∧
    mcpDeleteHandler m (some sid) tr =
      ⟨HttpResponse.textError 400 "Invalid or missing session ID",
        m, false, false, false, false⟩ := by
  refine ⟨?_, rfl, ?_⟩
  · simp [oncloseCleanup, h]
  · simp [mcpDeleteHandler, resolves_eq_false_of_lookup_none m sid h]

/-- Witness for C6 at a concrete map and unknown id. -/
theorem close_idempotent_noop_witness :
    oncloseCleanup [("a", 1)] (some "b") = [("a", 1)] ∧
    mcpDeleteHandler [("a", 1)] (some "b") TransportOutcome.ok =
      ⟨HttpResponse.textError 400 "Invalid or missing session ID",
        [("a", 1)], false, false, false, false⟩ := by
  have h := close_idempotent_noop [("a", 1)] "b" TransportOutcome.ok (by decide)
  exact ⟨h.1, h.2.2⟩

/-- Counterexample to C7 as stated: a GET rejected for an unknown session
id is answered with a plain-text 400 body, not a structured error object
carrying an invalid-request code and a null correlation id. -/
theorem get_rejection_unstructured :
    (mcpGetHandler [] (some "unknown") none).1.response =
      HttpResponse.textError 400 "Invalid or missing session ID" ∧
    isStructuredError (mcpGetHandler [] (some "unknown") none).1.response = false := by
  decide

/-- C7 (amended): a request rejected for malformed or missing session
context is answered on the POST route with a structured JSON-RPC error
object carrying the fixed invalid-request code -32000 and a null
correlation id, while on the GET and DELETE routes the rejection is a
plain-text 400 response with body "Invalid or missing session ID", not a
structured error object. -/
theorem rejection_response_shapes (m : Registry) (sid : Option String) (isInit : Bool)
    (tr : TransportOutcome) (lei : Option Nat)
    (h : resolves m sid = false) :
    ((sidTruthy sid = true ∨ isInit = false) →
      (mcpPostHandler m sid isInit tr).response = HttpResponse.jsonError 400 (-32000) none) ∧
    (mcpGetHandler m sid lei).1.response =
      HttpResponse.textError 400 "Invalid or missing session ID" ∧
    (mcpDeleteHandler m sid tr).response =
      HttpResponse.textError 400 "Invalid or missing session ID" := by
  refine ⟨fun hp => ?_, ?_, ?_⟩
  · rcases hp with hp | hp
    · simp [mcpPostHandler, h, hp]
    · simp [mcpPostHandler, h, hp]
  · simp [mcpGetHandler, h]
  · simp [mcpDeleteHandler, h]

/-- Witness for C7 (amended) at a concrete unknown session id. -/
theorem rejection_response_shapes_witness :
    (mcpPostHandler [] (some "s") false TransportOutcome.ok).response =
      HttpResponse.jsonError 400 (-32000) none ∧
    (mcpGetHandler [] (some "s") none).1.response =
      HttpResponse.textError 400 "Invalid or missing session ID" ∧
    (mcpDeleteHandler [] (some "s") TransportOutcome.ok).response =
      HttpResponse.textError 400 "Invalid or missing session ID" := by
  have h := rejection_response_shapes [] (some "s") false TransportOutcome.ok none (by decide)
  exact ⟨h.1 (Or.inr rfl), h.2.1, h.2.2⟩

/-- C8: when a POST that reached the transport layer (either the reuse or
the initialization branch) raises an unexpected internal fault, the fault
is logged, and the generic internal error (HTTP 500, JSON-RPC code -32603,
id null) is emitted if and only if no part of the response had been sent;
when headers were already committed, no error body is written. -/
theorem post_internal_fault_response (m : Registry) (sid : Option String) (isInit : Bool)
    (hs : Bool)
    (hreach : resolves m sid = true ∨ (sidTruthy sid = false ∧ isInit = true)) :
    (mcpPostHandler m sid isInit (TransportOutcome.fault hs)).loggedError = true ∧
    ((mcpPostHandler m sid isInit (TransportOutcome.fault hs)).response =
        HttpResponse.jsonError 500 (-32603) none ↔ hs = false) ∧
    (hs = true →
      (mcpPostHandler m sid isInit (TransportOutcome.fault hs)).response =
        HttpResponse.suppressed) := by
  rcases hreach with h | ⟨h1, h2⟩
  · cases hs <;> simp [mcpPostHandler, h]
  · cases hs <;> simp [mcpPostHandler, resolves_eq_false_of_not_truthy m sid h1, h1, h2]

/-- Witness for C8: a fault on a resolvable session with headers not yet
sent yields the 500 internal error. -/
theorem post_internal_fault_response_witness :
    (mcpPostHandler [("a", 1)] (some "a") false (TransportOutcome.fault false)).loggedError =
      true ∧
    (mcpPostHandler [("a", 1)] (some "a") false (TransportOutcome.fault false)).response =
      HttpResponse.jsonError 500 (-32603) none := by
  have h := post_internal_fault_response [("a", 1)] (some "a") false false (Or.inl (by decide))
  exact ⟨h.1, h.2.1.mpr rfl⟩

/-- Counterexample to C5 as stated: the SIGINT handler awaits each
`close()` with no per-session timeout, so a single close that never
settles leaves the remaining sessions unattempted and `process.exit(0)`
unreached - the process does not exit with success status after attempting
all N sessions. -/
theorem shutdown_hang_no_exit :
    (sigintHandler [(("s1", 0), CloseOutcome.hang), (("s2", 1), CloseOutcome.ok)]).exitedZero =
      false ∧
    (sigintHandler [(("s1", 0), CloseOutcome.hang), (("s2", 1), CloseOutcome.ok)]).settled =
      [] := by
  decide

/-- C5 (amended): the SIGINT handler iterates the registered sessions and
awaits the close of each with no per-session timeout; provided every close
settles (resolves or rejects), it awaits all N in order, records each
rejection and continues with the remaining sessions, and finally exits the
process with success status regardless of how many closes failed. -/
theorem shutdown_attempts_all_when_closes_settle
    (sessions : List ((String × Transport) × CloseOutcome))
    (h : sessions.all (fun x => !(x.2 == CloseOutcome.hang)) = true) :
    (sigintHandler sessions).settled = sessions.map (fun x => x.1.1) ∧
    (sigintHandler sessions).failures =
      (sessions.filter (fun x => x.2 == CloseOutcome.throws)).map (fun x => x.1.1) ∧
    (sigintHandler sessions).exitedZero = true := by
  have h' := shutdownGo_no_hang sessions (sessions.map (fun x => x.1)) [] [] h
  simpa [sigintHandler] using h'

/-- Witness for C5 (amended): three sessions, the middle close rejects,
all are awaited and the process exits 0. -/
theorem shutdown_attempts_all_witness :
    (sigintHandler [(("a", 0), CloseOutcome.ok), (("b", 1), CloseOutcome.throws),
        (("c", 2), CloseOutcome.ok)]).settled = ["a", "b", "c"] ∧
    (sigintHandler [(("a", 0), CloseOutcome.ok), (("b", 1), CloseOutcome.throws),
        (("c", 2), CloseOutcome.ok)]).failures = ["b"] ∧
    (sigintHandler [(("a", 0), CloseOutcome.ok), (("b", 1), CloseOutcome.throws),
        (("c", 2), CloseOutcome.ok)]).exitedZero = true := by
  have h := shutdown_attempts_all_when_closes_settle
    [(("a", 0), CloseOutcome.ok), (("b", 1), CloseOutcome.throws), (("c", 2), CloseOutcome.ok)]
    (by decide)
  refine ⟨?_, ?_, h.2.2⟩
  · rw [h.1]; decide
  · rw [h.2.1]; decide

/-- C1: reopening a stream on the GET route with a registered session id
and a `last-event-id` header `k` routes the request, with cursor `k`, to
the transport's replay; for a stream whose log held `snapshot` (cursors
`1..n`) when the replay began and to which `appended` was appended
concurrently with the replay, the delivery is exactly the events with
cursor strictly greater than `k` of the final log, in original order - the
`k+1..n` backlog first, then the live events - and the delivered cursors
are exactly `k+1, ..., n + |appended|`: no duplicate and no gap. -/
theorem replay_delivers_exactly_missed {α : Type} (snapshot appended : List α) (k : Nat)
    (hk : k ≤ snapshot.length) (m : Registry) (sid : String)
    (hsid : resolves m (some sid) = true) :
    (mcpGetHandler m (some sid) (some k)).1.transportInvoked = true ∧
    (mcpGetHandler m (some sid) (some k)).2 = some k ∧
    replayDelivered snapshot k appended = eventsAfter (snapshot ++ appended) k ∧
    (replayDelivered snapshot k appended).map Prod.fst =
      List.range' (k + 1) (snapshot.length + appended.length - k) := by
  have hbacklog : eventsAfter snapshot k = numberedFrom k (snapshot.drop k) := by
    rw [eventsAfter, numbered, numberedFrom_filter_of_le _ 0 k (Nat.zero_le k), Nat.sub_zero]
  have hwhole : eventsAfter (snapshot ++ appended) k =
      numberedFrom k (snapshot.drop k) ++ numberedFrom snapshot.length appended := by
    rw [eventsAfter, numbered, numberedFrom_filter_of_le _ 0 k (Nat.zero_le k), Nat.sub_zero,
      List.drop_append_of_le_length hk, numberedFrom_append, List.length_drop]
    congr 2
    omega
  refine ⟨by simp [mcpGetHandler, hsid], by simp [mcpGetHandler, hsid], ?_, ?_⟩
  · rw [replayDelivered, hbacklog, hwhole]
  · rw [replayDelivered, List.map_append, hbacklog, numberedFrom_map_fst, numberedFrom_map_fst,
      List.length_drop,
      show snapshot.length + 1 = (k + 1) + 1 * (snapshot.length - k) from by omega,
      List.range'_append]
    congr 1
    omega

/-- Witness for C1: a stream with events `1..5`, reopened at cursor 3
while two events are appended concurrently, delivers cursors `4,5,6,7`. -/
theorem replay_delivers_exactly_missed_witness :
    (mcpGetHandler [("a", 1)] (some "a") (some 3)).1.transportInvoked = true ∧
    replayDelivered [10, 20, 30, 40, 50] 3 [60, 70] =
      [(4, 40), (5, 50), (6, 60), (7, 70)] ∧
    (replayDelivered [10, 20, 30, 40, 50] 3 [60, 70]).map Prod.fst = [4, 5, 6, 7] := by
  have h := replay_delivers_exactly_missed [10, 20, 30, 40, 50] [60, 70] 3 (by decide)
    [("a", 1)] "a" (by decide)
  refine ⟨h.1, ?_, ?_⟩
  · rw [h.2.2.1]; decide
  · rw [h.2.2.2]; decide

end FirstMCP
